import Mathlib

/-!
Verification of the daylit-tray notification-dispatch daemon.

Shallow embedding of the core of `src/daylit-tray/src-tauri/src/`:
header authentication (`server.rs::validate_request`), the webhook
request loop (`server.rs::start_webhook_server`), lockfile creation,
the settings store (`state.rs`, `commands.rs`) and the periodic poller
(`scheduler.rs`).  Machine integers are modelled as `Nat` with explicit
bounds where overflow matters; fallible operations return `Option`.
-/

namespace Daylit

/-- Byte strings (`&[u8]` in the source); each element is a byte value. -/
abbrev Bytes := List Nat

/-- `u8::to_ascii_lowercase`: map `A`-`Z` (65..90) to `a`-`z`, leave the
rest unchanged. -/
def to_ascii_lowercase (b : Nat) : Nat :=
  if 65 ≤ b ∧ b ≤ 90 then b + 32 else b

/-- `str::eq_ignore_ascii_case`: equal lengths and pointwise equality of
ASCII-lowercased bytes. -/
def eq_ignore_ascii_case (a b : Bytes) : Bool :=
  a.length == b.length &&
    (a.zip b).all (fun p => to_ascii_lowercase p.1 == to_ascii_lowercase p.2)

/-- The bytes of an ASCII string literal (`str::as_bytes`). -/
def asciiBytes (s : String) : Bytes :=
  s.toList.map Char.toNat

/-- One HTTP header as held by tiny_http: a name (`h.field`) and a value. -/
structure Header where
  field : Bytes
  value : Bytes
deriving DecidableEq, Repr

/-- `subtle::ConstantTimeEq::ct_eq` on byte slices, converted to `bool`:
false when lengths differ, otherwise the conjunction of bytewise
equalities. -/
def ct_eq (a b : Bytes) : Bool :=
  a.length == b.length && (a.zip b).all (fun p => p.1 == p.2)

/-- The condition of the `find` in `validate_request`: the header name
case-insensitively equals `X-Daylit-Secret`. -/
def headerNameMatches (h : Header) : Bool :=
  eq_ignore_ascii_case h.field (asciiBytes "X-Daylit-Secret")

/-- `server.rs::validate_request`: find the first header whose name
case-insensitively equals `X-Daylit-Secret`, then compare its value
against the expected secret with `ct_eq`; no such header means `false`. -/
def validate_request (headers : List Header) (expected_secret : Bytes) : Bool :=
  match headers.find? headerNameMatches with
  | some h => ct_eq h.value expected_secret
  | none => false

/-! ## JSON values and the payload schema

`serde_json` values, restricted to integer numbers (all numbers appearing
in the claims are integers).  `serde_json::from_str::<WebhookPayload>`
is modelled on the parsed JSON tree; a body that is not well-formed JSON
text is represented as `Option.none` at the request level. -/

inductive Json where
  | null
  | bool (b : Bool)
  | num (n : Int)
  | str (s : String)
  | arr (xs : List Json)
  | obj (fields : List (String × Json))

/-- `state.rs::WebhookPayload`: `text: String`, `duration_ms: u32`
(the `u32` is a `Nat` kept below `2^32` by the deserializer). -/
structure WebhookPayload where
  text : String
  duration_ms : Nat
deriving DecidableEq, Repr

/-- serde deserialization of a `String` field: only a JSON string. -/
def parseString : Json → Option String
  | .str s => some s
  | _ => none

/-- serde deserialization of a `u32` field: an integer JSON number in
`[0, 2^32)`; anything else errors. -/
def parseU32 : Json → Option Nat
  | .num i => if 0 ≤ i ∧ i < 4294967296 then some i.toNat else none
  | _ => none

/-- The field loop of serde's derived `Deserialize` for `WebhookPayload`:
walk the object's fields in order, filling `text` and `duration_ms`,
erroring on a duplicate known field or a type mismatch, ignoring
unknown fields, and erroring at the end when a field is missing. -/
def parsePayloadFields : List (String × Json) → Option String → Option Nat →
    Option WebhookPayload
  | [], some t, some d => some ⟨t, d⟩
  | [], _, _ => none
  | (k, v) :: rest, tAcc, dAcc =>
    if k = "text" then
      match tAcc with
      | some _ => none
      | none =>
        match parseString v with
        | some s => parsePayloadFields rest (some s) dAcc
        | none => none
    else if k = "duration_ms" then
      match dAcc with
      | some _ => none
      | none =>
        match parseU32 v with
        | some n => parsePayloadFields rest tAcc (some n)
        | none => none
    else parsePayloadFields rest tAcc dAcc

/-- `serde_json::from_str::<WebhookPayload>` on a parsed JSON value:
only an object can deserialize into the struct. -/
def parseWebhookPayload : Json → Option WebhookPayload
  | .obj fields => parsePayloadFields fields none none
  | _ => none

/-! ## Settings (`state.rs`) -/

/-- `state.rs::Settings`. -/
structure Settings where
  font_size : String
  launch_at_login : Bool
  lockfile_dir : Option String
  daylit_path : Option String
  use_native_notifications : Bool
deriving DecidableEq, Repr

/-- `impl Default for Settings`. -/
def Settings.default : Settings :=
  { font_size := "medium"
  , launch_at_login := false
  , lockfile_dir := none
  , daylit_path := none
  , use_native_notifications := false }

/-! ## The webhook request loop (`server.rs::start_webhook_server`) -/

/-- The mutable state the request loop touches: the last-payload slot
(`AppState.payload`). -/
structure ServerState where
  payload : Option WebhookPayload
deriving DecidableEq, Repr

/-- A UI hand-off submitted by the loop: either a native notification
(title `"Daylit"`, body = payload text; `duration_ms` unused) or a work
item for the main thread carrying the payload to the custom window. -/
inductive Handoff where
  | native (text : String)
  | custom (text : String) (duration_ms : Nat)
deriving DecidableEq, Repr

/-- An HTTP response: status code and body string. -/
structure HttpResp where
  code : Nat
  body : String
deriving DecidableEq, Repr

/-- One incoming request as seen by the loop: method, headers, and the
body after JSON lexing (`none` when the body is not well-formed JSON). -/
structure Request where
  method : String
  headers : List Header
  body : Option Json

/-- Result of serving one request: the new state, the list of UI
hand-offs submitted (empty or a singleton), and the response sent
(`none` when the request is silently ignored). -/
structure StepResult where
  state : ServerState
  handoffs : List Handoff
  response : Option HttpResp
deriving DecidableEq, Repr

/-- One iteration of the `for request in server.incoming_requests()`
loop in `start_webhook_server`: skip non-POST silently; answer 401 when
`validate_request` fails; on a parse failure answer 400; otherwise
store the payload in the slot, submit exactly one hand-off (native or
custom per `use_native_notifications`), and answer 200. -/
def processRequest (settings : Settings) (secret : Bytes) (st : ServerState)
    (req : Request) : StepResult :=
  if req.method ≠ "POST" then
    { state := st, handoffs := [], response := none }
  else if validate_request req.headers secret = false then
    { state := st, handoffs := [], response := some ⟨401, "Unauthorized"⟩ }
  else
    match req.body.bind parseWebhookPayload with
    | some p =>
      { state := { payload := some p }
      , handoffs := [if settings.use_native_notifications then
            Handoff.native p.text
          else
            Handoff.custom p.text p.duration_ms]
      , response := some ⟨200, "Notification triggered"⟩ }
    | none =>
      { state := st, handoffs := [], response := some ⟨400, "Invalid payload"⟩ }

/-- Serve a sequence of requests in arrival order, accumulating the
hand-offs submitted. -/
def processAll (settings : Settings) (secret : Bytes) (st : ServerState) :
    List Request → ServerState × List Handoff
  | [] => (st, [])
  | r :: rs =>
    let step := processRequest settings secret st r
    let rest := processAll settings secret step.state rs
    (rest.1, step.handoffs ++ rest.2)

/-- The acceptance condition of the loop, read off the code: a POST that
passes `validate_request` and whose body deserializes; yields the parsed
payload. -/
def acceptedOf (secret : Bytes) (r : Request) : Option WebhookPayload :=
  if r.method = "POST" ∧ validate_request r.headers secret = true then
    r.body.bind parseWebhookPayload
  else
    none

/-- Written from the spec's words, for comparison with `processAll`: the
"most recently accepted payload" over a request sequence (overwrite-wins),
starting from the slot's initial contents. -/
def lastAcceptedSpec (secret : Bytes) (init : Option WebhookPayload) :
    List Request → Option WebhookPayload
  | [] => init
  | r :: rs =>
    match acceptedOf secret r with
    | some p => lastAcceptedSpec secret (some p) rs
    | none => lastAcceptedSpec secret init rs

/-! ## Settings persistence (`state.rs::Settings::load`,
`commands.rs::save_settings`) -/

/-- serde serialization of `Option<String>`: `None` is `null`,
`Some s` is a JSON string. -/
def optStringToJson : Option String → Json
  | none => .null
  | some s => .str s

/-- serde deserialization of an `Option<String>` field. -/
def parseOptString : Json → Option (Option String)
  | .null => some none
  | .str s => some (some s)
  | _ => none

/-- serde deserialization of a `bool` field. -/
def parseBool : Json → Option Bool
  | .bool b => some b
  | _ => none

/-- `serde_json::to_value(&settings)`: the derived `Serialize` emits the
five fields in declaration order. -/
def settingsToJson (s : Settings) : Json :=
  .obj [ ("font_size", .str s.font_size)
       , ("launch_at_login", .bool s.launch_at_login)
       , ("lockfile_dir", optStringToJson s.lockfile_dir)
       , ("daylit_path", optStringToJson s.daylit_path)
       , ("use_native_notifications", .bool s.use_native_notifications) ]

/-- The field loop of serde's derived `Deserialize` for `Settings`
(which carries `#[serde(default)]`): walk fields in order, error on a
duplicate known field or a type mismatch, ignore unknown fields, and
fill any missing field from `Settings::default`. -/
def parseSettingsFields : List (String × Json) → Option String → Option Bool →
    Option (Option String) → Option (Option String) → Option Bool → Option Settings
  | [], fs, ll, ld, dp, un =>
    some { font_size := fs.getD "medium"
         , launch_at_login := ll.getD false
         , lockfile_dir := ld.getD none
         , daylit_path := dp.getD none
         , use_native_notifications := un.getD false }
  | (k, v) :: rest, fs, ll, ld, dp, un =>
    if k = "font_size" then
      match fs with
      | some _ => none
      | none =>
        match parseString v with
        | some s => parseSettingsFields rest (some s) ll ld dp un
        | none => none
    else if k = "launch_at_login" then
      match ll with
      | some _ => none
      | none =>
        match parseBool v with
        | some b => parseSettingsFields rest fs (some b) ld dp un
        | none => none
    else if k = "lockfile_dir" then
      match ld with
      | some _ => none
      | none =>
        match parseOptString v with
        | some o => parseSettingsFields rest fs ll (some o) dp un
        | none => none
    else if k = "daylit_path" then
      match dp with
      | some _ => none
      | none =>
        match parseOptString v with
        | some o => parseSettingsFields rest fs ll ld (some o) un
        | none => none
    else if k = "use_native_notifications" then
      match un with
      | some _ => none
      | none =>
        match parseBool v with
        | some b => parseSettingsFields rest fs ll ld dp (some b)
        | none => none
    else parseSettingsFields rest fs ll ld dp un

/-- `serde_json::from_value::<Settings>`. -/
def settingsFromJson : Json → Option Settings
  | .obj fields => parseSettingsFields fields none none none none none
  | _ => none

/-- The tauri store: a key/value document (`settings.json`).  `save`
flushes the in-memory document, so the persisted document is the
in-memory one and the store is modelled as the document itself. -/
abbrev StoreDoc := List (String × Json)

/-- `Store::set`: replace the value bound to a key. -/
def storeSet (store : StoreDoc) (k : String) (v : Json) : StoreDoc :=
  (k, v) :: store.filter (fun p => p.1 ≠ k)

/-- `Store::get`. -/
def storeGet (store : StoreDoc) (k : String) : Option Json :=
  (store.find? (fun p => p.1 == k)).map Prod.snd

/-- `state.rs::Settings::load`: `store.get("settings")`, deserialize,
and fall back to the default on absence or any deserialization error. -/
def Settings.load (store : StoreDoc) : Settings :=
  ((storeGet store "settings").bind settingsFromJson).getD Settings.default

/-- The persistence step of `commands.rs::save_settings`:
`store.set("settings", to_value(&settings))` followed by `store.save()`
(the autostart and lockfile-migration side effects do not touch the
store document). -/
def save_settings (s : Settings) (store : StoreDoc) : StoreDoc :=
  storeSet store "settings" (settingsToJson s)

/-! ## Commands (`commands.rs`) -/

/-- `commands.rs::get_notification_payload`: clone the slot's contents
under the lock; the state is returned alongside to make the (absent)
state change explicit. -/
def get_notification_payload (st : ServerState) :
    Option WebhookPayload × ServerState :=
  (st.payload, st)

/-! ## Lockfile creation (`server.rs::start_webhook_server` startup) -/

/-- `state.rs::LOCKFILE_NAME`. -/
def LOCKFILE_NAME : String := "daylit-tray.lock"

/-- The `rand::distributions::Alphanumeric` character set, in the order
rand defines it. -/
def alphanumCharset : List Char :=
  "ABCDEFGHIJKLMNOPQRSTUVWXYZabcdefghijklmnopqrstuvwxyz0123456789".toList

/-- `OsRng.sample_iter(&Alphanumeric).take(32)`: the RNG is abstracted
as a stream of draws from the 62-element alphanumeric character set. -/
def genSecretChars (stream : Nat → Fin 62) : List Char :=
  (List.range 32).map (fun i =>
    alphanumCharset.get ⟨(stream i).val,
      Nat.lt_of_lt_of_le (stream i).isLt (by decide)⟩)

/-- The collected 32-character secret string
(`.map(char::from).collect::<String>()`). -/
def genSecret (stream : Nat → Fin 62) : String :=
  String.mk (genSecretChars stream)

/-- `format!("{}|{}|{}", port, pid, secret)`. -/
def lockContent (port pid : Nat) (secret : String) : String :=
  toString port ++ "|" ++ toString pid ++ "|" ++ secret

/-- The single filesystem write the startup path performs: its
directory, file name, contents, and (POSIX) mode. -/
structure LockfileWrite where
  dir : String
  name : String
  content : String
  mode : Nat
deriving DecidableEq, Repr

/-- The lockfile part of `start_webhook_server` after a successful bind:
resolve the directory (`settings.lockfile_dir`, else the platform
app-config directory), join `LOCKFILE_NAME`, write
`"<port>|<pid>|<secret>"`, and set mode `0o600` on unix. -/
def lockfileStartup (settings : Settings) (appConfigDir : String)
    (port pid : Nat) (secret : String) : LockfileWrite :=
  { dir := settings.lockfile_dir.getD appConfigDir
  , name := LOCKFILE_NAME
  , content := lockContent port pid secret
  , mode := 0o600 }

/-! ## Periodic poller (`scheduler.rs`) -/

/-- `str::parse::<u64>`: an optional leading `+`, then one or more
ASCII digits, value below `2^64`; anything else is an error. -/
def parseU64 (s : String) : Option Nat :=
  let cs := s.toList
  let digits := if cs.head? = some '+' then cs.tail else cs
  if digits = [] then none
  else if digits.all Char.isDigit then
    let v := digits.foldl (fun acc c => acc * 10 + (c.toNat - 48)) 0
    if v < 18446744073709551616 then some v else none
  else none

/-- `scheduler.rs::get_scheduler_interval`: the environment variable
`DAYLIT_SCHEDULER_INTERVAL_MS` (passed in as `env`, `none` when unset),
parsed as `u64`, defaulting to 60000. -/
def get_scheduler_interval (env : Option String) : Nat :=
  (env.bind parseU64).getD 60000

/-- An observable action of the scheduler thread. -/
inductive SchedAction where
  | sleep (ms : Nat)
  | spawn (program : String) (args : List String)
deriving DecidableEq, Repr

/-- One iteration of the `loop` in `start_scheduler_thread`: read the
interval from the environment, sleep for it, resolve the binary path
from the settings (else the literal `"daylit"`), and spawn it with the
single argument `"notify"`.  `env` and `settings` are those observed at
this tick. -/
def schedulerTick (env : Option String) (settings : Settings) :
    List SchedAction :=
  [ SchedAction.sleep (get_scheduler_interval env)
  , SchedAction.spawn (settings.daylit_path.getD "daylit") ["notify"] ]

/-- The action trace of the scheduler thread over a sequence of ticks,
each with the environment and settings it observes. -/
def schedulerTrace : List (Option String × Settings) → List SchedAction
  | [] => []
  | (env, st) :: rest => schedulerTick env st ++ schedulerTrace rest

/-! ## Helper lemmas -/

theorem ct_eq_eq_true_iff (a b : Bytes) : ct_eq a b = true ↔ a = b := by
  induction a generalizing b with
  | nil => cases b <;> simp [ct_eq]
  | cons x xs ih =>
    cases b with
    | nil => simp [ct_eq]
    | cons y ys =>
      have h := ih ys
      simp only [ct_eq, List.length_cons, List.zip_cons_cons, List.all_cons,
        Bool.and_eq_true, beq_iff_eq, List.cons.injEq] at h ⊢
      constructor
      · rintro ⟨hlen, hxy, hall⟩
        exact ⟨hxy, h.mp ⟨by omega, hall⟩⟩
      · rintro ⟨hxy, hys⟩
        have := h.mpr hys
        exact ⟨by omega, hxy, this.2⟩

theorem find?_append_of_none {p : Header → Bool} {l1 l2 : List Header}
    (h : l1.find? p = none) : (l1 ++ l2).find? p = l2.find? p := by
  simp [List.find?_append, h]

theorem alphanumCharset_length : alphanumCharset.length = 62 := by decide

theorem alphanumCharset_all : ∀ c ∈ alphanumCharset, c.isAlphanum = true := by
  decide

theorem processRequest_state (settings : Settings) (secret : Bytes)
    (st : ServerState) (r : Request) :
    (processRequest settings secret st r).state.payload =
      (match acceptedOf secret r with
       | some p => some p
       | none => st.payload) := by
  unfold processRequest acceptedOf
  by_cases hm : r.method = "POST"
  · cases hv : validate_request r.headers secret with
    | false => simp [hm, hv]
    | true =>
      cases hp : r.body.bind parseWebhookPayload with
      | none => simp [hm, hv, hp]
      | some p => simp [hm, hv, hp]
  · simp [hm]

theorem processRequest_handoffs (settings : Settings) (secret : Bytes)
    (st : ServerState) (r : Request) :
    (processRequest settings secret st r).handoffs =
      (match acceptedOf secret r with
       | some p => [if settings.use_native_notifications then
            Handoff.native p.text
          else
            Handoff.custom p.text p.duration_ms]
       | none => []) := by
  unfold processRequest acceptedOf
  by_cases hm : r.method = "POST"
  · cases hv : validate_request r.headers secret with
    | false => simp [hm, hv]
    | true =>
      cases hp : r.body.bind parseWebhookPayload with
      | none => simp [hm, hv, hp]
      | some p => simp [hm, hv, hp]
  · simp [hm]

theorem processAll_payload (settings : Settings) (secret : Bytes) :
    ∀ (reqs : List Request) (st : ServerState),
      ((processAll settings secret st reqs).1).payload =
        lastAcceptedSpec secret st.payload reqs := by
  intro reqs
  induction reqs with
  | nil => intro st; rfl
  | cons r rs ih =>
    intro st
    simp only [processAll]
    rw [ih]
    have hs := processRequest_state settings secret st r
    cases hp : acceptedOf secret r with
    | some p =>
      rw [hp] at hs
      rw [hs]
      simp [lastAcceptedSpec, hp]
    | none =>
      rw [hp] at hs
      rw [hs]
      simp [lastAcceptedSpec, hp]

theorem processAll_handoffs_length (settings : Settings) (secret : Bytes) :
    ∀ (reqs : List Request) (st : ServerState),
      ((processAll settings secret st reqs).2).length =
        reqs.countP (fun r => (acceptedOf secret r).isSome) := by
  intro reqs
  induction reqs with
  | nil => intro st; rfl
  | cons r rs ih =>
    intro st
    simp only [processAll, List.length_append, List.countP_cons]
    rw [ih]
    have hh := processRequest_handoffs settings secret st r
    cases hp : acceptedOf secret r with
    | some p => rw [hp] at hh; rw [hh]; simp [hp]; omega
    | none => rw [hp] at hh; rw [hh]; simp [hp]

/-! ## Claims -/

/-- C4: for every expected secret and every presented header value of any
length, the constant-time comparison `ct_eq` used by `validate_request`
returns the same boolean as plain byte-sequence equality. -/
theorem claim4_ct_eq_refines_plain_eq (a b : Bytes) : ct_eq a b = (a == b) := by
  by_cases h : a = b
  · subst h
    rw [beq_self_eq_true]
    exact (ct_eq_eq_true_iff _ _).mpr rfl
  · have h1 : ct_eq a b ≠ true := fun hc => h ((ct_eq_eq_true_iff a b).mp hc)
    have h2 : (a == b) = false := beq_eq_false_iff_ne.mpr h
    rw [h2, Bool.eq_false_iff]
    exact h1

/-- C10: authentication inspects only the first header whose name
case-insensitively equals `X-Daylit-Secret`: when that header carries a
wrong value, `validate_request` is false — whatever later headers (for
example one carrying the correct secret) follow — and the POST is
answered 401. -/
theorem claim10_first_header_only (pre : List Header) (h : Header)
    (post : List Header) (secret : Bytes) (settings : Settings)
    (st : ServerState) (body : Option Json)
    (hpre : ∀ h2 ∈ pre, headerNameMatches h2 = false)
    (hname : headerNameMatches h = true)
    (hval : h.value ≠ secret) :
    validate_request (pre ++ h :: post) secret = false ∧
    (processRequest settings secret st
        { method := "POST", headers := pre ++ h :: post, body := body }).response =
      some ⟨401, "Unauthorized"⟩ := by
  have hfind : (pre ++ h :: post).find? headerNameMatches = some h := by
    rw [find?_append_of_none (List.find?_eq_none.mpr (fun x hx => by
      simp [hpre x hx]))]
    simp [hname]
  have hv : validate_request (pre ++ h :: post) secret = false := by
    unfold validate_request
    rw [hfind]
    show ct_eq h.value secret = false
    cases hc : ct_eq h.value secret with
    | false => rfl
    | true => exact absurd ((ct_eq_eq_true_iff _ _).mp hc) hval
  refine ⟨hv, ?_⟩
  unfold processRequest
  simp [hv]

theorem claim10_witness :
    validate_request
        [⟨asciiBytes "X-Daylit-Secret", asciiBytes "wrong"⟩,
         ⟨asciiBytes "x-daylit-secret", asciiBytes "s3cret"⟩]
        (asciiBytes "s3cret") = false ∧
    (processRequest Settings.default (asciiBytes "s3cret") ⟨none⟩
        { method := "POST"
        , headers := [⟨asciiBytes "X-Daylit-Secret", asciiBytes "wrong"⟩,
            ⟨asciiBytes "x-daylit-secret", asciiBytes "s3cret"⟩]
        , body := none }).response = some ⟨401, "Unauthorized"⟩ :=
  claim10_first_header_only []
    ⟨asciiBytes "X-Daylit-Secret", asciiBytes "wrong"⟩
    [⟨asciiBytes "x-daylit-secret", asciiBytes "s3cret"⟩]
    (asciiBytes "s3cret") Settings.default ⟨none⟩ none
    (by intro h2 hmem; cases hmem) (by decide) (by decide)

/-- C3 counterexample: a request that carries a header whose name
case-insensitively equals `X-Daylit-Secret` and whose value equals the
secret byte-for-byte, yet `validate_request` rejects it, because the
first name-matching header has a wrong value. -/
theorem claim3_counterexample :
    (∃ h ∈ ([⟨asciiBytes "X-Daylit-Secret", asciiBytes "wrong"⟩,
             ⟨asciiBytes "x-daylit-secret", asciiBytes "s3cret"⟩] : List Header),
        headerNameMatches h = true ∧ h.value = asciiBytes "s3cret") ∧
    validate_request
        [⟨asciiBytes "X-Daylit-Secret", asciiBytes "wrong"⟩,
         ⟨asciiBytes "x-daylit-secret", asciiBytes "s3cret"⟩]
        (asciiBytes "s3cret") = false := by
  constructor
  · exact ⟨⟨asciiBytes "x-daylit-secret", asciiBytes "s3cret"⟩,
      by decide, by decide, by decide⟩
  · decide

/-- C3 (amended): a POST is authorized iff the first header whose name
ASCII-case-insensitively equals `X-Daylit-Secret` carries a value
byte-for-byte equal to the in-memory secret; a POST failing that check
is answered 401 `"Unauthorized"` with no hand-off; and an all-lowercase
header name `x-daylit-secret` authenticates identically to the
canonical casing. -/
theorem claim3_first_match_auth
    (headers pre post : List Header) (h : Header) (secret value : Bytes)
    (rest : List Header) (settings : Settings) (st : ServerState)
    (req : Request)
    (hsplit : headers = pre ++ h :: post)
    (hpre : ∀ h2 ∈ pre, headerNameMatches h2 = false)
    (hname : headerNameMatches h = true)
    (hmethod : req.method = "POST")
    (hnoauth : validate_request req.headers secret = false) :
    (validate_request headers secret = true ↔ h.value = secret) ∧
    (validate_request (⟨asciiBytes "x-daylit-secret", value⟩ :: rest) secret =
      validate_request (⟨asciiBytes "X-Daylit-Secret", value⟩ :: rest) secret) ∧
    (processRequest settings secret st req).response = some ⟨401, "Unauthorized"⟩ ∧
    (processRequest settings secret st req).handoffs = [] ∧
    (processRequest settings secret st req).state = st := by
  subst hsplit
  have hfind : (pre ++ h :: post).find? headerNameMatches = some h := by
    rw [find?_append_of_none (List.find?_eq_none.mpr (fun x hx => by
      simp [hpre x hx]))]
    simp [hname]
  refine ⟨?_, ?_, ?_⟩
  · unfold validate_request
    rw [hfind]
    exact ct_eq_eq_true_iff h.value secret
  · unfold validate_request
    have hlow : headerNameMatches ⟨asciiBytes "x-daylit-secret", value⟩ = true := by
      show eq_ignore_ascii_case (asciiBytes "x-daylit-secret")
        (asciiBytes "X-Daylit-Secret") = true
      decide
    have hcan : headerNameMatches ⟨asciiBytes "X-Daylit-Secret", value⟩ = true := by
      show eq_ignore_ascii_case (asciiBytes "X-Daylit-Secret")
        (asciiBytes "X-Daylit-Secret") = true
      decide
    simp [hlow, hcan]
  · unfold processRequest
    simp [hmethod, hnoauth]

/-- C1 counterexample: an authenticated POST whose body is
`{"text":"","duration_ms":0}` — zero-length `text` and `duration_ms = 0`
— is answered 200 `"Notification triggered"`, a hand-off is dispatched,
and the slot is overwritten; the code performs no emptiness or range
validation, contradicting the claimed 400. -/
theorem claim1_counterexample :
    (processRequest Settings.default (asciiBytes "s") ⟨none⟩
        { method := "POST"
        , headers := [⟨asciiBytes "X-Daylit-Secret", asciiBytes "s"⟩]
        , body := some (.obj [("text", .str ""), ("duration_ms", .num 0)])
        }).response = some ⟨200, "Notification triggered"⟩ ∧
    (processRequest Settings.default (asciiBytes "s") ⟨none⟩
        { method := "POST"
        , headers := [⟨asciiBytes "X-Daylit-Secret", asciiBytes "s"⟩]
        , body := some (.obj [("text", .str ""), ("duration_ms", .num 0)])
        }).handoffs = [Handoff.custom "" 0] ∧
    (processRequest Settings.default (asciiBytes "s") ⟨none⟩
        { method := "POST"
        , headers := [⟨asciiBytes "X-Daylit-Secret", asciiBytes "s"⟩]
        , body := some (.obj [("text", .str ""), ("duration_ms", .num 0)])
        }).state.payload = some ⟨"", 0⟩ := by
  refine ⟨?_, ?_, ?_⟩ <;> decide

/-- C1 (amended): for every authenticated POST the listener answers 400
`"Invalid payload"` with no hand-off exactly when the body fails to
deserialize as the payload schema; every body that deserializes is
accepted with 200 and dispatched, and a JSON object with a string
`text` (empty included) and an integer `duration_ms` anywhere in u32
range (0 and values above 600000 included) always deserializes. -/
theorem claim1_accept_iff_schema_parse
    (settings : Settings) (secret : Bytes) (st : ServerState) (req : Request)
    (s : String) (n : Int)
    (hmethod : req.method = "POST")
    (hauth : validate_request req.headers secret = true)
    (hn0 : 0 ≤ n) (hn : n < 4294967296) :
    (req.body.bind parseWebhookPayload = none →
      (processRequest settings secret st req).response =
          some ⟨400, "Invalid payload"⟩ ∧
      (processRequest settings secret st req).handoffs = []) ∧
    (∀ p, req.body.bind parseWebhookPayload = some p →
      (processRequest settings secret st req).response =
          some ⟨200, "Notification triggered"⟩ ∧
      (processRequest settings secret st req).handoffs ≠ []) ∧
    parseWebhookPayload (.obj [("text", .str s), ("duration_ms", .num n)]) =
      some ⟨s, n.toNat⟩ := by
  refine ⟨?_, ?_, ?_⟩
  · intro hp
    unfold processRequest
    simp [hmethod, hauth, hp]
  · intro p hp
    unfold processRequest
    simp [hmethod, hauth, hp]
  · simp [parseWebhookPayload, parsePayloadFields, parseString, parseU32,
      hn0, hn]

theorem claim1_witness :
    ((some (Json.obj [("text", Json.str ""), ("duration_ms", Json.num 0)])).bind
        parseWebhookPayload = none →
      (processRequest Settings.default (asciiBytes "k") ⟨none⟩
          { method := "POST"
          , headers := [⟨asciiBytes "x-daylit-secret", asciiBytes "k"⟩]
          , body := some (.obj [("text", .str ""), ("duration_ms", .num 0)])
          }).response = some ⟨400, "Invalid payload"⟩ ∧
      (processRequest Settings.default (asciiBytes "k") ⟨none⟩
          { method := "POST"
          , headers := [⟨asciiBytes "x-daylit-secret", asciiBytes "k"⟩]
          , body := some (.obj [("text", .str ""), ("duration_ms", .num 0)])
          }).handoffs = []) ∧
    (∀ p, (some (Json.obj [("text", Json.str ""), ("duration_ms", Json.num 0)])).bind
        parseWebhookPayload = some p →
      (processRequest Settings.default (asciiBytes "k") ⟨none⟩
          { method := "POST"
          , headers := [⟨asciiBytes "x-daylit-secret", asciiBytes "k"⟩]
          , body := some (.obj [("text", .str ""), ("duration_ms", .num 0)])
          }).response = some ⟨200, "Notification triggered"⟩ ∧
      (processRequest Settings.default (asciiBytes "k") ⟨none⟩
          { method := "POST"
          , headers := [⟨asciiBytes "x-daylit-secret", asciiBytes "k"⟩]
          , body := some (.obj [("text", .str ""), ("duration_ms", .num 0)])
          }).handoffs ≠ []) ∧
    parseWebhookPayload
        (.obj [("text", Json.str ""), ("duration_ms", Json.num 0)]) =
      some ⟨"", (0 : Int).toNat⟩ :=
  claim1_accept_iff_schema_parse Settings.default (asciiBytes "k") ⟨none⟩
    { method := "POST"
    , headers := [⟨asciiBytes "x-daylit-secret", asciiBytes "k"⟩]
    , body := some (.obj [("text", .str ""), ("duration_ms", .num 0)]) }
    "" 0 rfl (by decide) (by decide) (by decide)

/-- C2: every authenticated POST whose body parses as the payload schema
submits exactly one UI hand-off — native or custom per
`use_native_notifications` — and leaves the last-payload slot holding
exactly that payload; over any request sequence the slot always equals
the most recently accepted payload (overwrite-wins) and the hand-off
count equals the number of accepted requests. -/
theorem claim2_one_handoff_latest_wins
    (settings : Settings) (secret : Bytes) (st : ServerState) (req : Request)
    (p : WebhookPayload)
    (hmethod : req.method = "POST")
    (hauth : validate_request req.headers secret = true)
    (hparse : req.body.bind parseWebhookPayload = some p) :
    (processRequest settings secret st req).handoffs =
      [if settings.use_native_notifications then Handoff.native p.text
       else Handoff.custom p.text p.duration_ms] ∧
    (processRequest settings secret st req).state.payload = some p ∧
    (∀ (reqs : List Request) (st0 : ServerState),
      ((processAll settings secret st0 reqs).1).payload =
        lastAcceptedSpec secret st0.payload reqs) ∧
    (∀ (reqs : List Request) (st0 : ServerState),
      ((processAll settings secret st0 reqs).2).length =
        reqs.countP (fun r => (acceptedOf secret r).isSome)) := by
  have hacc : acceptedOf secret req = some p := by
    unfold acceptedOf
    simp [hmethod, hauth, hparse]
  refine ⟨?_, ?_, processAll_payload settings secret,
    processAll_handoffs_length settings secret⟩
  · rw [processRequest_handoffs, hacc]
  · rw [processRequest_state, hacc]

theorem claim2_witness :
    (processRequest Settings.default (asciiBytes "k") ⟨none⟩
        { method := "POST"
        , headers := [⟨asciiBytes "X-Daylit-Secret", asciiBytes "k"⟩]
        , body := some (.obj [("text", .str "Stand up"), ("duration_ms", .num 5000)])
        }).handoffs =
      [if Settings.default.use_native_notifications then
          Handoff.native (WebhookPayload.mk "Stand up" 5000).text
        else
          Handoff.custom (WebhookPayload.mk "Stand up" 5000).text
            (WebhookPayload.mk "Stand up" 5000).duration_ms] ∧
    (processRequest Settings.default (asciiBytes "k") ⟨none⟩
        { method := "POST"
        , headers := [⟨asciiBytes "X-Daylit-Secret", asciiBytes "k"⟩]
        , body := some (.obj [("text", .str "Stand up"), ("duration_ms", .num 5000)])
        }).state.payload = some ⟨"Stand up", 5000⟩ ∧
    (∀ (reqs : List Request) (st0 : ServerState),
      ((processAll Settings.default (asciiBytes "k") st0 reqs).1).payload =
        lastAcceptedSpec (asciiBytes "k") st0.payload reqs) ∧
    (∀ (reqs : List Request) (st0 : ServerState),
      ((processAll Settings.default (asciiBytes "k") st0 reqs).2).length =
        reqs.countP (fun r => (acceptedOf (asciiBytes "k") r).isSome)) :=
  claim2_one_handoff_latest_wins Settings.default (asciiBytes "k") ⟨none⟩
    { method := "POST"
    , headers := [⟨asciiBytes "X-Daylit-Secret", asciiBytes "k"⟩]
    , body := some (.obj [("text", .str "Stand up"), ("duration_ms", .num 5000)]) }
    ⟨"Stand up", 5000⟩ rfl (by decide) (by decide)

/-- C5: every rejected request — answered 401 `"Unauthorized"` or 400
`"Invalid payload"` — leaves the last-payload slot unchanged and submits
no UI hand-off. -/
theorem claim5_rejection_mutates_nothing
    (settings : Settings) (secret : Bytes) (st : ServerState) (req : Request)
    (hrej : (processRequest settings secret st req).response =
          some ⟨401, "Unauthorized"⟩ ∨
        (processRequest settings secret st req).response =
          some ⟨400, "Invalid payload"⟩) :
    (processRequest settings secret st req).state = st ∧
    (processRequest settings secret st req).handoffs = [] := by
  by_cases hm : req.method = "POST"
  · cases hv : validate_request req.headers secret with
    | false =>
      unfold processRequest
      simp [hm, hv]
    | true =>
      cases hp : req.body.bind parseWebhookPayload with
      | none =>
        unfold processRequest
        simp [hm, hv, hp]
      | some p =>
        exfalso
        unfold processRequest at hrej
        simp [hm, hv, hp] at hrej
  · unfold processRequest
    simp [hm]

theorem claim5_witness :
    (processRequest Settings.default (asciiBytes "k") ⟨some ⟨"old", 7⟩⟩
        { method := "POST", headers := [], body := none }).state =
      ⟨some ⟨"old", 7⟩⟩ ∧
    (processRequest Settings.default (asciiBytes "k") ⟨some ⟨"old", 7⟩⟩
        { method := "POST", headers := [], body := none }).handoffs = [] :=
  claim5_rejection_mutates_nothing Settings.default (asciiBytes "k")
    ⟨some ⟨"old", 7⟩⟩ { method := "POST", headers := [], body := none }
    (Or.inl (by decide))

theorem lastAcceptedSpec_of_none (secret : Bytes) :
    ∀ (reqs : List Request) (init : Option WebhookPayload),
      (∀ r ∈ reqs, acceptedOf secret r = none) →
      lastAcceptedSpec secret init reqs = init := by
  intro reqs
  induction reqs with
  | nil => intro init _; rfl
  | cons r rs ih =>
    intro init hn
    unfold lastAcceptedSpec
    rw [hn r (List.mem_cons_self r rs)]
    exact ih init (fun x hx => hn x (List.mem_cons_of_mem r hx))

/-- C9: reading the last payload via `get_notification_payload` is
non-destructive: it returns the slot's current contents, leaves the
state unchanged, repeated reads return equal results, and when no
request has ever been accepted it returns `none`. -/
theorem claim9_read_non_destructive
    (st : ServerState) (settings : Settings) (secret : Bytes)
    (reqs : List Request)
    (hnone : ∀ r ∈ reqs, acceptedOf secret r = none) :
    (get_notification_payload st).2 = st ∧
    (get_notification_payload st).1 = st.payload ∧
    (get_notification_payload ((get_notification_payload st).2)).1 =
      (get_notification_payload st).1 ∧
    (get_notification_payload
        ((processAll settings secret ⟨none⟩ reqs).1)).1 = none := by
  refine ⟨rfl, rfl, rfl, ?_⟩
  show ((processAll settings secret ⟨none⟩ reqs).1).payload = none
  rw [processAll_payload]
  exact lastAcceptedSpec_of_none secret reqs none hnone

theorem claim9_witness :
    (get_notification_payload ⟨some ⟨"a", 1⟩⟩).2 = ⟨some ⟨"a", 1⟩⟩ ∧
    (get_notification_payload ⟨some ⟨"a", 1⟩⟩).1 = (⟨some ⟨"a", 1⟩⟩ : ServerState).payload ∧
    (get_notification_payload ((get_notification_payload ⟨some ⟨"a", 1⟩⟩).2)).1 =
      (get_notification_payload ⟨some ⟨"a", 1⟩⟩).1 ∧
    (get_notification_payload
        ((processAll Settings.default (asciiBytes "k") ⟨none⟩
          [{ method := "POST", headers := [], body := none }]).1)).1 = none :=
  claim9_read_non_destructive ⟨some ⟨"a", 1⟩⟩ Settings.default (asciiBytes "k")
    [{ method := "POST", headers := [], body := none }]
    (fun r hr => by
      cases hr with
      | head => decide
      | tail _ h => cases h)

theorem claim3_witness :
    (validate_request [⟨asciiBytes "X-Daylit-Secret", asciiBytes "s3cret"⟩]
        (asciiBytes "s3cret") = true ↔
      asciiBytes "s3cret" = asciiBytes "s3cret") ∧
    (validate_request [⟨asciiBytes "x-daylit-secret", asciiBytes "v"⟩]
        (asciiBytes "s3cret") =
      validate_request [⟨asciiBytes "X-Daylit-Secret", asciiBytes "v"⟩]
        (asciiBytes "s3cret")) ∧
    (processRequest Settings.default (asciiBytes "s3cret") ⟨none⟩
        { method := "POST", headers := [], body := none }).response =
      some ⟨401, "Unauthorized"⟩ ∧
    (processRequest Settings.default (asciiBytes "s3cret") ⟨none⟩
        { method := "POST", headers := [], body := none }).handoffs = [] ∧
    (processRequest Settings.default (asciiBytes "s3cret") ⟨none⟩
        { method := "POST", headers := [], body := none }).state = ⟨none⟩ :=
  claim3_first_match_auth
    [⟨asciiBytes "X-Daylit-Secret", asciiBytes "s3cret"⟩] []
    [] ⟨asciiBytes "X-Daylit-Secret", asciiBytes "s3cret"⟩
    (asciiBytes "s3cret") (asciiBytes "v") []
    Settings.default ⟨none⟩
    { method := "POST", headers := [], body := none }
    rfl (by intro h2 hmem; cases hmem) (by decide) rfl (by decide)

/-- C6: after a successful bind the startup path writes one lockfile
named `daylit-tray.lock` in `settings.lockfile_dir` (the app-config
directory when unset) whose contents are exactly
`"<port>|<pid>|<secret>"`, sets POSIX mode `0600`, and the generated
secret is a 32-character alphanumeric string. -/
theorem claim6_lockfile_record
    (settings : Settings) (appConfigDir : String) (port pid : Nat)
    (stream : Nat → Fin 62) :
    (lockfileStartup settings appConfigDir port pid (genSecret stream)).name =
      "daylit-tray.lock" ∧
    (lockfileStartup settings appConfigDir port pid (genSecret stream)).dir =
      settings.lockfile_dir.getD appConfigDir ∧
    (lockfileStartup settings appConfigDir port pid (genSecret stream)).content =
      toString port ++ "|" ++ toString pid ++ "|" ++ genSecret stream ∧
    (lockfileStartup settings appConfigDir port pid (genSecret stream)).mode =
      0o600 ∧
    (genSecret stream).length = 32 ∧
    (∀ c ∈ (genSecret stream).toList, c.isAlphanum = true) := by
  refine ⟨rfl, rfl, rfl, rfl, ?_, ?_⟩
  · show (genSecretChars stream).length = 32
    simp [genSecretChars]
  · intro c hc
    have hc2 : c ∈ genSecretChars stream := hc
    unfold genSecretChars at hc2
    rw [List.mem_map] at hc2
    obtain ⟨i, _, rfl⟩ := hc2
    exact alphanumCharset_all _ (List.get_mem _ _ _)

/-- C7: each poller tick reads `DAYLIT_SCHEDULER_INTERVAL_MS` afresh —
60000 when absent or unparsable, the parsed value otherwise — sleeps
for that many milliseconds, and only afterwards spawns the external
binary (the configured path, else the literal `"daylit"`) with the
single argument `"notify"`; the first action after startup is a
full-period sleep, not a spawn. -/
theorem claim7_sleep_before_spawn
    (env : Option String) (settings : Settings)
    (ticks : List (Option String × Settings)) (bad good : String) (v : Nat)
    (hbad : parseU64 bad = none) (hgood : parseU64 good = some v) :
    get_scheduler_interval none = 60000 ∧
    get_scheduler_interval (some bad) = 60000 ∧
    get_scheduler_interval (some good) = v ∧
    schedulerTick env settings =
      [SchedAction.sleep (get_scheduler_interval env),
       SchedAction.spawn (settings.daylit_path.getD "daylit") ["notify"]] ∧
    (schedulerTrace ((env, settings) :: ticks)).head? =
      some (SchedAction.sleep (get_scheduler_interval env)) := by
  refine ⟨rfl, ?_, ?_, rfl, rfl⟩
  · simp [get_scheduler_interval, hbad]
  · simp [get_scheduler_interval, hgood]

theorem claim7_witness :
    get_scheduler_interval none = 60000 ∧
    get_scheduler_interval (some "invalid") = 60000 ∧
    get_scheduler_interval (some "500") = 500 ∧
    schedulerTick (some "500") Settings.default =
      [SchedAction.sleep (get_scheduler_interval (some "500")),
       SchedAction.spawn (Settings.default.daylit_path.getD "daylit") ["notify"]] ∧
    (schedulerTrace ((some "500", Settings.default) :: [])).head? =
      some (SchedAction.sleep (get_scheduler_interval (some "500"))) :=
  claim7_sleep_before_spawn (some "500") Settings.default [] "invalid" "500" 500
    (by decide) (by decide)

theorem settingsFromJson_toJson (s : Settings) :
    settingsFromJson (settingsToJson s) = some s := by
  cases s with
  | mk fs ll ld dp un =>
    cases ld <;> cases dp <;>
      simp [settingsToJson, settingsFromJson, parseSettingsFields,
        parseString, parseBool, parseOptString, optStringToJson]

/-- C8: saving a `Settings` value through the store and then loading it
yields the same value: `Settings::load` after `save_settings` is the
identity, for every `Settings` and every prior store document. -/
theorem claim8_settings_roundtrip (s : Settings) (store : StoreDoc) :
    Settings.load (save_settings s store) = s := by
  unfold Settings.load save_settings storeSet storeGet
  simp [settingsFromJson_toJson]

end Daylit
